import Mathlib

/-!
Verification of the food-security dashboard's data pipeline (`src/app.py`).

The embedding models the loader and query logic of the script:

* `load_data`     — `app.py` lines 18–31: year := int of the first 4 characters
  of the raw year string (raising on failure, which aborts the whole load);
  value := `pd.to_numeric(..., errors := coerce)` on the raw value field.
  The value column is a float64 column, so a stored cell is a finite float,
  a signed infinity (for explicit infinity tokens such as `inf`, `-inf`,
  `Infinity`), or NaN — and NaN is the stored form of "absent": the column
  cannot distinguish a missing value from a NaN.  Cells are therefore
  modelled by `PyF`, finite rationals extended with `posInf`, `negInf` and
  `nan` (finite float rounding is abstracted: finite arithmetic is exact
  rational arithmetic).
* `sortValuesResult` — lines 54–58: exact item match, inclusive year range,
  then `sort_values` on year with the default kind (quicksort).  Pandas
  documents the default quicksort as not stable, so the call guarantees only
  a year-sorted permutation of the filtered rows, with the relative order of
  equal-year rows unspecified; the result is modelled as a relation, not a
  function.
* `summarize`     — lines 64–78: latest value, percent change, record count,
  with pandas' NaN propagation and signed-zero division on `PyF`.
* `alignByYear`   — lines 114 and 142: `isin` restriction of a secondary
  series to the years of the primary series.
* `classify`      — the dispatch on lines 99/127/155: case-insensitive
  substring tests in fixed priority order.
* `childComparison` — lines 168–172: the sibling child-nutrition filter,
  which applies no sort.

Strings are processed as `List Char`; `trimChars`, `digitsVal` and the numeric
parsers model Python's `int(...)` and pandas' numeric coercion on the string
form of a field.
-/

/-- Drop whitespace from both ends of a character list (Python `strip`,
as performed by `int(...)` / numeric coercion on a string). -/
def trimChars (cs : List Char) : List Char :=
  ((cs.dropWhile Char.isWhitespace).reverse.dropWhile Char.isWhitespace).reverse

/-- Lower-case a character list (Python `str.lower` on ASCII data). -/
def lowerChars (cs : List Char) : List Char :=
  cs.map Char.toLower

/-- Decimal value of a digit list, most significant first. -/
def digitsVal (cs : List Char) : Nat :=
  cs.foldl (fun n c => 10 * n + (c.toNat - '0'.toNat)) 0

/-- True when the list is a non-empty run of decimal digits. -/
def allDigits (cs : List Char) : Bool :=
  !cs.isEmpty && cs.all Char.isDigit

/-- Python `int(s)` on a string: optional surrounding whitespace, optional
sign, then a non-empty digit run; anything else raises (here: `none`). -/
def pyInt? (s : String) : Option Int :=
  match trimChars s.toList with
  | '-' :: rest => if allDigits rest then some (-(digitsVal rest : Int)) else none
  | '+' :: rest => if allDigits rest then some ((digitsVal rest : Int)) else none
  | cs => if allDigits cs then some ((digitsVal cs : Int)) else none

/-- Exponent part of a float literal: optional sign and a digit run. -/
def parseExp? : List Char → Option Int
  | '-' :: rest => if allDigits rest then some (-(digitsVal rest : Int)) else none
  | '+' :: rest => if allDigits rest then some ((digitsVal rest : Int)) else none
  | cs => if allDigits cs then some ((digitsVal cs : Int)) else none

/-- Unsigned mantissa and exponent of a decimal float literal:
integer digits, optional fractional digits, optional exponent. -/
def parseMantExp? (cs : List Char) : Option (List Char × List Char × Int) :=
  match cs.dropWhile Char.isDigit, cs.takeWhile Char.isDigit with
  | [], ip => if ip.isEmpty then none else some (ip, [], 0)
  | '.' :: rest2, ip =>
      let fp := rest2.takeWhile Char.isDigit
      if ip.isEmpty && fp.isEmpty then none
      else
        match rest2.dropWhile Char.isDigit with
        | [] => some (ip, fp, 0)
        | 'e' :: rest4 => (parseExp? rest4).map (fun ex => (ip, fp, ex))
        | 'E' :: rest4 => (parseExp? rest4).map (fun ex => (ip, fp, ex))
        | _ => none
  | 'e' :: rest4, ip => if ip.isEmpty then none else (parseExp? rest4).map (fun ex => (ip, [], ex))
  | 'E' :: rest4, ip => if ip.isEmpty then none else (parseExp? rest4).map (fun ex => (ip, [], ex))
  | _, _ => none

/-- Sign, integer digits, fractional digits and exponent of a finite decimal
float token. -/
def pyFloatParts? (s : String) : Option (Bool × List Char × List Char × Int) :=
  match trimChars s.toList with
  | '-' :: rest => (parseMantExp? rest).map (fun t => (true, t))
  | '+' :: rest => (parseMantExp? rest).map (fun t => (false, t))
  | cs => (parseMantExp? cs).map (fun t => (false, t))

/-- Rational value denoted by parsed float parts. -/
def partsToRat (neg : Bool) (ip fp : List Char) (ex : Int) : ℚ :=
  (cond neg (-1) 1) * ((digitsVal ip : ℚ) + (digitsVal fp : ℚ) / (10 : ℚ) ^ fp.length)
    * (10 : ℚ) ^ ex

/-- IEEE-style float64 scalar as pandas stores and computes with: a finite
rational (rounding of finite arithmetic is abstracted away), a signed
infinity, or NaN.  A missing value in the frame is stored as NaN. -/
inductive PyF where
  | fin : ℚ → PyF
  | posInf : PyF
  | negInf : PyF
  | nan : PyF
deriving DecidableEq

namespace PyF

/-- Whether a stored scalar is a finite float. -/
def isFinite : PyF → Bool
  | fin _ => true
  | posInf => false
  | negInf => false
  | nan => false

/-- IEEE subtraction on `PyF`. -/
def sub : PyF → PyF → PyF
  | nan, _ => nan
  | _, nan => nan
  | fin a, fin b => fin (a - b)
  | fin _, posInf => negInf
  | fin _, negInf => posInf
  | posInf, fin _ => posInf
  | posInf, posInf => nan
  | posInf, negInf => posInf
  | negInf, fin _ => negInf
  | negInf, posInf => negInf
  | negInf, negInf => nan

/-- IEEE division on `PyF` (zero divisors are positive zero, as produced by
pandas for a stored `0.0`): `x / 0` is NaN for `x = 0` and a signed infinity
otherwise. -/
def div : PyF → PyF → PyF
  | nan, _ => nan
  | _, nan => nan
  | fin a, fin b =>
      if b = 0 then (if a = 0 then nan else if 0 < a then posInf else negInf)
      else fin (a / b)
  | fin _, posInf => fin 0
  | fin _, negInf => fin 0
  | posInf, fin b => if 0 ≤ b then posInf else negInf
  | negInf, fin b => if 0 ≤ b then negInf else posInf
  | posInf, _ => nan
  | negInf, _ => nan

/-- IEEE multiplication on `PyF`. -/
def mul : PyF → PyF → PyF
  | nan, _ => nan
  | _, nan => nan
  | fin a, fin b => fin (a * b)
  | fin a, posInf => if 0 < a then posInf else if a < 0 then negInf else nan
  | fin a, negInf => if 0 < a then negInf else if a < 0 then posInf else nan
  | posInf, fin b => if 0 < b then posInf else if b < 0 then negInf else nan
  | negInf, fin b => if 0 < b then negInf else if b < 0 then posInf else nan
  | posInf, posInf => posInf
  | posInf, negInf => negInf
  | negInf, posInf => negInf
  | negInf, negInf => posInf

end PyF

/-- True when the characters spell an infinity token: Python's float parser,
which pandas' numeric coercion follows for these tokens, accepts `inf` and
`infinity` in any letter case. -/
def isInfTok (cs : List Char) : Bool :=
  lowerChars cs == "inf".toList || lowerChars cs == "infinity".toList

/-- Non-decimal outcome of the numeric coercion: an explicit infinity token
(with optional sign) gives a signed infinity; every other unparseable token
is coerced to NaN, the stored form of absent. -/
def infOrNan : List Char → PyF
  | '-' :: rest => if isInfTok rest then PyF.negInf else PyF.nan
  | '+' :: rest => if isInfTok rest then PyF.posInf else PyF.nan
  | cs => if isInfTok cs then PyF.posInf else PyF.nan

/-- Pandas `to_numeric(x, errors := coerce)` on the string form of a field:
a finite decimal literal parses to its rational value, an explicit infinity
token parses to a signed infinity, and everything else becomes NaN (absent);
never an error. -/
def pyFloat (s : String) : PyF :=
  match pyFloatParts? s with
  | some t => PyF.fin (partsToRat t.1 t.2.1 t.2.2.1 t.2.2.2)
  | none => infOrNan (trimChars s.toList)

/-- One raw CSV row after column-name normalization (string form of fields). -/
structure RawRow where
  year : String
  item : String
  value : String
  unit : String
  flag : String
  note : String
deriving DecidableEq

/-- One cleaned observation (`app.py` data model after `load_data`).  The
value field is a float64 cell: finite, a signed infinity, or NaN-absent —
never a raw string. -/
structure IndicatorRecord where
  item : String
  year : Int
  value : PyF
  unit : String
  flag : String
  note : String
deriving DecidableEq

/-- Year coercion of `app.py` line 26: string form, first 4 characters,
parsed as a Python int. -/
def parseYearField (s : String) : Option Int :=
  pyInt? (s.take 4)

/-- Loader of `app.py` lines 18–31.  The year coercion raises on the first
unparseable year field, so the whole load fails; the value coercion never
fails, producing NaN (absent) for unparseable tokens. -/
def load_data : List RawRow → Except String (List IndicatorRecord)
  | [] => Except.ok []
  | r :: rs =>
    match parseYearField r.year with
    | none => Except.error "MalformedYear"
    | some y =>
      match load_data rs with
      | Except.error e => Except.error e
      | Except.ok ds =>
          Except.ok ({ item := r.item, year := y, value := pyFloat r.value,
                       unit := r.unit, flag := r.flag, note := r.note } :: ds)

/-- A displayed metric: either the literal string `N/A` or a number. -/
inductive Metric where
  | na : Metric
  | num : PyF → Metric
deriving DecidableEq

/-- The three summary scalars of `app.py` lines 64–78. -/
structure Summary where
  latestValue : Metric
  percentChange : Metric
  observationCount : Nat
deriving DecidableEq

/-- Latest-value metric (`app.py` line 67): value of the last row when the
filtered frame is non-empty, the string `N/A` otherwise. -/
def latestValueOf (l : List IndicatorRecord) : Metric :=
  match l.getLast? with
  | some r => Metric.num r.value
  | none => Metric.na

/-- Unit shown next to the latest value (`app.py` line 68): unit of the FIRST
row of the filtered frame, empty when the frame is empty. -/
def latestUnitOf (l : List IndicatorRecord) : String :=
  match l.head? with
  | some r => r.unit
  | none => ""

/-- Percent-change metric (`app.py` lines 70–75): guarded only by
`len(filtered_df) > 1`; with at least two rows the formula
`((last - first) / first) * 100` is evaluated in float arithmetic. -/
def percentChangeOf (l : List IndicatorRecord) : Metric :=
  if 1 < l.length then
    match l.head?, l.getLast? with
    | some f, some la =>
        Metric.num (PyF.mul (PyF.div (PyF.sub la.value f.value) f.value)
          (PyF.fin 100))
    | _, _ => Metric.na
  else Metric.na

/-- Summary of the filtered frame (`app.py` lines 64–78). -/
def summarize (l : List IndicatorRecord) : Summary :=
  { latestValue := latestValueOf l
    percentChange := percentChangeOf l
    observationCount := l.length }

/-- Predicate of the primary filter (`app.py` lines 54–57): exact item match
and inclusive year range. -/
def filterPred (item : String) (lo hi : Int) (r : IndicatorRecord) : Bool :=
  decide (r.item = item ∧ lo ≤ r.year ∧ r.year ≤ hi)

/-- Contract of the primary filter plus the `sort_values` call of `app.py`
lines 54–58 with its default kind.  Pandas' documentation guarantees only
that the result is a permutation of the filtered rows that is non-decreasing
in the sort key: the default quicksort is NOT stable (only the mergesort and
stable kinds are), so the relative order of equal-year rows is left
unspecified.  The call's result is therefore modelled as a relation — the
set of row orders the program may produce — rather than as a function. -/
def sortValuesResult (df : List IndicatorRecord) (item : String) (lo hi : Int)
    (out : List IndicatorRecord) : Prop :=
  List.Perm out (df.filter (filterPred item lo hi)) ∧
  List.Sorted (fun a b : IndicatorRecord => a.year ≤ b.year) out

/-- Year alignment of `app.py` lines 114/142: keep exactly the rows of the
secondary frame whose year occurs in the primary frame (`isin`); no
interpolation, no filling, no re-sorting. -/
def alignByYear (primary secondary : List IndicatorRecord) : List IndicatorRecord :=
  secondary.filter (fun r => decide (r.year ∈ primary.map (fun p => p.year)))

/-- The four dispatch outcomes of the analysis section of `app.py`. -/
inductive IndicatorCategory where
  | Undernourishment : IndicatorCategory
  | DietaryEnergy : IndicatorCategory
  | ChildNutrition : IndicatorCategory
  | Other : IndicatorCategory
deriving DecidableEq

/-- Whether `pat` occurs as a contiguous prefix of `text`. -/
def isPrefOf : List Char → List Char → Bool
  | [], _ => true
  | _ :: _, [] => false
  | p :: ps, c :: cs => p == c && isPrefOf ps cs

/-- Whether `pat` occurs as a contiguous substring of `text`
(Python `pat in text`). -/
def isSubstrOf (pat text : List Char) : Bool :=
  match text with
  | [] => pat.isEmpty
  | _ :: cs => isPrefOf pat text || isSubstrOf pat cs

/-- Category dispatch of `app.py` lines 99/127/155: case-insensitive
substring tests, first match wins, in the source order
undernourishment, dietary energy, children. -/
def classify (item : String) : IndicatorCategory :=
  if isSubstrOf "undernourishment".toList (lowerChars item.toList) then
    IndicatorCategory.Undernourishment
  else if isSubstrOf "dietary energy".toList (lowerChars item.toList) then
    IndicatorCategory.DietaryEnergy
  else if isSubstrOf "children".toList (lowerChars item.toList) then
    IndicatorCategory.ChildNutrition
  else IndicatorCategory.Other

/-- Sibling child-nutrition filter of `app.py` lines 168–172: item in the
caller-selected list, same inclusive year range as the primary filter, and
no sort — the frame keeps the original dataset order. -/
def childComparison (df : List IndicatorRecord) (selected : List String)
    (lo hi : Int) : List IndicatorRecord :=
  df.filter (fun r => decide (r.item ∈ selected ∧ lo ≤ r.year ∧ r.year ≤ hi))

/-- Raw row whose year field has only two characters (C3 counterexample). -/
def shortYearRow : RawRow :=
  { year := "20", item := "Prevalence of undernourishment (%)", value := "N/A",
    unit := "%", flag := "E", note := "" }

/-- Raw row with an unparseable year field (C3 witness). -/
def badYearRow : RawRow :=
  { year := "abcd", item := "Prevalence of undernourishment (%)", value := "5.1",
    unit := "%", flag := "E", note := "" }

/-- Raw row whose value field is the non-numeric token `N/A` (C4). -/
def rowNA : RawRow :=
  { year := "2018", item := "Average dietary energy supply adequacy (%)",
    value := "N/A", unit := "%", flag := "E", note := "" }

/-- Raw row whose value field is the numeric token `1234.5` (C4). -/
def rowNum : RawRow :=
  { year := "2019", item := "Average dietary energy supply adequacy (%)",
    value := "1234.5", unit := "%", flag := "E", note := "" }

/-- Raw row whose value field is the explicit infinity token `inf`
(C4 counterexample). -/
def rowInf : RawRow :=
  { year := "2017", item := "Average dietary energy supply adequacy (%)",
    value := "inf", unit := "%", flag := "E", note := "" }

/-- First record of the C1 counterexample: value zero. -/
def pcZeroFirst : IndicatorRecord :=
  { item := "Prevalence of undernourishment (%)", year := 2018,
    value := PyF.fin 0, unit := "%", flag := "E", note := "" }

/-- Last record of the C1 counterexample: value one. -/
def pcOneLast : IndicatorRecord :=
  { item := "Prevalence of undernourishment (%)", year := 2019,
    value := PyF.fin 1, unit := "%", flag := "E", note := "" }

/-- First record of the C1 witness: value ten. -/
def pcTenFirst : IndicatorRecord :=
  { item := "Prevalence of undernourishment (%)", year := 2018,
    value := PyF.fin 10, unit := "%", flag := "E", note := "" }

/-- Last record of the C1 witness: value twelve. -/
def pcTwelveLast : IndicatorRecord :=
  { item := "Prevalence of undernourishment (%)", year := 2019,
    value := PyF.fin 12, unit := "%", flag := "E", note := "" }

/-- First of two equal-year, equal-item records in source order
(C2 tie example). -/
def tieFirst : IndicatorRecord :=
  { item := "Prevalence of undernourishment (%)", year := 2005,
    value := PyF.nan, unit := "%", flag := "E", note := "first" }

/-- Second of two equal-year, equal-item records in source order
(C2 tie example). -/
def tieSecond : IndicatorRecord :=
  { item := "Prevalence of undernourishment (%)", year := 2005,
    value := PyF.nan, unit := "%", flag := "X", note := "second" }

/-- Primary record with year 2000 (C8 example). -/
def c8p : IndicatorRecord :=
  { item := "Prevalence of undernourishment (%)", year := 2000,
    value := PyF.nan, unit := "%", flag := "", note := "" }

/-- Primary record with year 2001 (C8 example). -/
def c8q : IndicatorRecord :=
  { item := "Prevalence of undernourishment (%)", year := 2001,
    value := PyF.nan, unit := "%", flag := "", note := "" }

/-- Secondary record with year 2001, listed first (C8 example). -/
def c8x : IndicatorRecord :=
  { item := "Average dietary energy supply adequacy (%)", year := 2001,
    value := PyF.nan, unit := "kcal", flag := "", note := "" }

/-- Secondary record with year 2000, listed second (C8 example). -/
def c8y : IndicatorRecord :=
  { item := "Average dietary energy supply adequacy (%)", year := 2000,
    value := PyF.nan, unit := "kcal", flag := "", note := "" }

/-- Child-nutrition record with the later year, listed first (C9 example). -/
def c9a : IndicatorRecord :=
  { item := "Children aged <5 years stunted (%)", year := 2005,
    value := PyF.nan, unit := "%", flag := "", note := "" }

/-- Child-nutrition record with the earlier year, listed second (C9 example). -/
def c9b : IndicatorRecord :=
  { item := "Children aged <5 years wasted (%)", year := 2003,
    value := PyF.nan, unit := "%", flag := "", note := "" }

/-- First record of the C10 example, with unit `%`. -/
def c10a : IndicatorRecord :=
  { item := "x", year := 2000, value := PyF.nan, unit := "%", flag := "",
    note := "" }

/-- Last record of the C10 example, with a different unit. -/
def c10b : IndicatorRecord :=
  { item := "x", year := 2001, value := PyF.nan, unit := "kcal/cap/day",
    flag := "", note := "" }

/-- Any unparseable year field anywhere in the input aborts the whole load
with the `MalformedYear` error. -/
theorem load_data_error_of_badYear (rows : List RawRow) (r : RawRow)
    (hr : r ∈ rows) (hbad : parseYearField r.year = none) :
    load_data rows = Except.error "MalformedYear" := by
  induction rows with
  | nil => cases hr
  | cons a rs ih =>
    rcases List.mem_cons.mp hr with h | h
    · subst h
      simp [load_data, hbad]
    · cases ha : parseYearField a.year with
      | none => simp [load_data, ha]
      | some y => simp [load_data, ha, ih h]

/-- Every record of a successful load corresponds to an input row: its year is
the parse of the row's year field and its value the numeric coercion of the
row's value field. -/
theorem load_data_ok_mem (rows : List RawRow) (ds : List IndicatorRecord)
    (h : load_data rows = Except.ok ds) :
    ∀ rec ∈ ds, ∃ r ∈ rows, parseYearField r.year = some rec.year ∧
      rec.value = pyFloat r.value := by
  induction rows generalizing ds with
  | nil =>
    cases ds with
    | nil => intro rec hrec; cases hrec
    | cons d ds2 => exact absurd h (by intro hx; cases hx)
  | cons a rs ih =>
    rw [load_data] at h
    cases ha : parseYearField a.year with
    | none => rw [ha] at h; cases h
    | some y =>
      rw [ha] at h
      cases hrs : load_data rs with
      | error e => rw [hrs] at h; cases h
      | ok ds2 =>
        rw [hrs] at h
        cases h
        intro rec hrec
        rcases List.mem_cons.mp hrec with hcase | hcase
        · subst hcase
          exact ⟨a, List.mem_cons_self a rs, by simp [ha], rfl⟩
        · obtain ⟨r, hrmem, hy, hv⟩ := ih ds2 hrs rec hcase
          exact ⟨r, List.mem_cons_of_mem a hrmem, hy, hv⟩

/-- When every year field parses, the load succeeds: value coercion alone
never fails the load. -/
theorem load_data_ok_of_years (rows : List RawRow)
    (h : ∀ r ∈ rows, parseYearField r.year ≠ none) :
    ∃ ds, load_data rows = Except.ok ds := by
  induction rows with
  | nil => exact ⟨[], rfl⟩
  | cons a rs ih =>
    obtain ⟨ds2, hds2⟩ := ih (fun r hr => h r (List.mem_cons_of_mem a hr))
    cases ha : parseYearField a.year with
    | none => exact absurd ha (h a (List.mem_cons_self a rs))
    | some y =>
      refine ⟨{ item := a.item, year := y, value := pyFloat a.value,
                unit := a.unit, flag := a.flag, note := a.note } :: ds2, ?_⟩
      rw [load_data, ha, hds2]

/-- C5: alignByYear keeps exactly the records of the secondary sequence whose
year occurs in the primary sequence's year set (no interpolation or filling),
and aligning a sequence with itself returns it unchanged. -/
theorem align_by_year_correct :
    (∀ (A B : List IndicatorRecord) (r : IndicatorRecord),
      r ∈ alignByYear A B ↔ r ∈ B ∧ r.year ∈ A.map (fun p => p.year)) ∧
    (∀ A : List IndicatorRecord, alignByYear A A = A) := by
  constructor
  · intro A B r
    simp [alignByYear, List.mem_filter]
  · intro A
    apply List.filter_eq_self.mpr
    intro a ha
    exact decide_eq_true (List.mem_map_of_mem _ ha)

/-- C8: alignByYear preserves the secondary sequence's source order (the
output is a subsequence of the secondary input, never re-sorted), so an
unsorted secondary series stays unsorted, as the concrete example shows. -/
theorem align_preserves_secondary_order :
    (∀ A B : List IndicatorRecord, (alignByYear A B).Sublist B) ∧
    alignByYear [c8p, c8q] [c8x, c8y] = [c8x, c8y] ∧
    ¬ List.Sorted (fun a b : IndicatorRecord => a.year ≤ b.year)
        (alignByYear [c8p, c8q] [c8x, c8y]) := by
  refine ⟨fun A B => List.filter_sublist B, by decide, by decide⟩

/-- C7: summarizing the empty filtered sequence yields count 0 and both the
latest value and the percent change reported as `N/A` with no exception
(`summarize` is a total function); a single-record sequence keeps that
record's value as the latest value while the percent change stays `N/A`. -/
theorem summarize_empty_single :
    summarize [] = { latestValue := Metric.na, percentChange := Metric.na,
                     observationCount := 0 } ∧
    (∀ r : IndicatorRecord,
      summarize [r] = { latestValue := Metric.num r.value,
                        percentChange := Metric.na, observationCount := 1 }) := by
  exact ⟨rfl, fun r => rfl⟩

/-- C9: the child-nutrition comparison frame holds exactly the records whose
item is in the caller-selected list and whose year lies in the same inclusive
range as the primary filter, in original dataset order (a subsequence of the
dataset); no sort is applied, as the concrete unsorted example shows. -/
theorem child_comparison_correct :
    (∀ (df : List IndicatorRecord) (sel : List String) (lo hi : Int)
        (r : IndicatorRecord),
      r ∈ childComparison df sel lo hi ↔
        r ∈ df ∧ r.item ∈ sel ∧ lo ≤ r.year ∧ r.year ≤ hi) ∧
    (∀ (df : List IndicatorRecord) (sel : List String) (lo hi : Int),
      (childComparison df sel lo hi).Sublist df) ∧
    childComparison [c9a, c9b]
      ["Children aged <5 years stunted (%)", "Children aged <5 years wasted (%)"]
      2000 2010 = [c9a, c9b] ∧
    ¬ List.Sorted (fun a b : IndicatorRecord => a.year ≤ b.year) [c9a, c9b] := by
  refine ⟨?_, fun df sel lo hi => List.filter_sublist df, by decide, by decide⟩
  intro df sel lo hi r
  simp [childComparison, List.mem_filter, and_assoc]

/-- C10: for a non-empty filtered sequence the displayed latest value is the
value of the last record while the displayed unit is the unit of the first
record, so when the unit is not constant across the records the two come from
different records, as the concrete example shows. -/
theorem latest_value_unit_mismatch :
    (∀ (l : List IndicatorRecord) (f la : IndicatorRecord),
      l.head? = some f → l.getLast? = some la →
      latestValueOf l = Metric.num la.value ∧ latestUnitOf l = f.unit) ∧
    (latestValueOf [c10a, c10b] = Metric.num c10b.value ∧
      latestUnitOf [c10a, c10b] = c10a.unit ∧ c10a.unit ≠ c10b.unit) := by
  constructor
  · intro l f la hf hla
    constructor
    · simp [latestValueOf, hla]
    · simp [latestUnitOf, hf]
  · exact ⟨by decide, by decide, by decide⟩

/-- C10 witness: the general pairing applied to the concrete two-record
sequence with distinct units. -/
theorem latest_value_unit_mismatch_witness :
    latestValueOf [c10a, c10b] = Metric.num c10b.value ∧
    latestUnitOf [c10a, c10b] = c10a.unit :=
  latest_value_unit_mismatch.1 [c10a, c10b] c10a c10b rfl rfl

/-- C6: classify is a pure function of the item name using case-insensitive
substring tests in fixed priority order — undernourishment text first, then
dietary energy, then children, first match winning — with the three concrete
evaluations of the spec scenario. -/
theorem classify_dispatch :
    (∀ s : String,
      isSubstrOf "undernourishment".toList (lowerChars s.toList) = true →
      classify s = IndicatorCategory.Undernourishment) ∧
    (∀ s : String,
      isSubstrOf "undernourishment".toList (lowerChars s.toList) = false →
      isSubstrOf "dietary energy".toList (lowerChars s.toList) = true →
      classify s = IndicatorCategory.DietaryEnergy) ∧
    (∀ s : String,
      isSubstrOf "undernourishment".toList (lowerChars s.toList) = false →
      isSubstrOf "dietary energy".toList (lowerChars s.toList) = false →
      isSubstrOf "children".toList (lowerChars s.toList) = true →
      classify s = IndicatorCategory.ChildNutrition) ∧
    (∀ s : String,
      isSubstrOf "undernourishment".toList (lowerChars s.toList) = false →
      isSubstrOf "dietary energy".toList (lowerChars s.toList) = false →
      isSubstrOf "children".toList (lowerChars s.toList) = false →
      classify s = IndicatorCategory.Other) ∧
    classify "Prevalence of undernourishment (%)" =
      IndicatorCategory.Undernourishment ∧
    classify "Children under 5 stunted (%)" = IndicatorCategory.ChildNutrition ∧
    classify "GDP per capita" = IndicatorCategory.Other := by
  refine ⟨?_, ?_, ?_, ?_, by decide, by decide, by decide⟩
  · intro s h1
    simp only [classify]
    rw [h1]
    simp
  · intro s h1 h2
    simp only [classify]
    rw [h1, h2]
    simp
  · intro s h1 h2 h3
    simp only [classify]
    rw [h1, h2, h3]
    simp
  · intro s h1 h2 h3
    simp only [classify]
    rw [h1, h2, h3]
    simp

/-- C6 witness: the first-priority branch applied at a concrete item name. -/
theorem classify_dispatch_witness :
    classify "Prevalence of undernourishment (3-year average)" =
      IndicatorCategory.Undernourishment :=
  classify_dispatch.1 "Prevalence of undernourishment (3-year average)" (by decide)

/-- C3 counterexample: the load accepts a raw year field of only two
characters — `int(str(x)[:4])` succeeds on `"20"` — so a successfully loaded
record's year need not be a 4-digit integer. -/
theorem load_year_counterexample :
    load_data [shortYearRow] =
      Except.ok [{ item := "Prevalence of undernourishment (%)", year := 20,
                   value := PyF.nan, unit := "%", flag := "E", note := "" }] ∧
    ¬ (1000 ≤ (20 : Int) ∧ (20 : Int) ≤ 9999) := by
  constructor
  · have h1 : parseYearField "20" = some 20 := by decide
    have h2 : pyFloat "N/A" = PyF.nan := by decide
    rw [load_data]
    rw [show shortYearRow.year = "20" from rfl, h1, load_data]
    rw [show shortYearRow.value = "N/A" from rfl, h2]
    rfl
  · decide

/-- C3 (amended): a raw year field whose leading 4 characters do not parse as
a Python int makes the entire load fail with `MalformedYear`; consequently
every record of a successfully loaded dataset has a year equal to the integer
parsed from the first (up to) 4 characters of its raw year string — though
that integer need not have 4 digits. -/
theorem load_year_policy :
    (∀ (rows : List RawRow) (r : RawRow), r ∈ rows →
      parseYearField r.year = none →
      load_data rows = Except.error "MalformedYear") ∧
    (∀ (rows : List RawRow) (ds : List IndicatorRecord),
      load_data rows = Except.ok ds →
      ∀ rec ∈ ds, ∃ r ∈ rows, parseYearField r.year = some rec.year) := by
  constructor
  · exact fun rows r hr hbad => load_data_error_of_badYear rows r hr hbad
  · intro rows ds h rec hrec
    obtain ⟨r, hrmem, hy, _⟩ := load_data_ok_mem rows ds h rec hrec
    exact ⟨r, hrmem, hy⟩

/-- C3 witness: a row whose year field has no numeric 4-character head makes
the concrete one-row load fail, as the amended theorem states. -/
theorem load_year_policy_witness :
    load_data [badYearRow] = Except.error "MalformedYear" :=
  load_year_policy.1 [badYearRow] badYearRow (List.mem_cons_self badYearRow [])
    (by decide)

/-- C2 (code_bug): every output admitted by the filter-and-sort contract
holds exactly the item-and-range records sorted non-decreasing by year, but
the contract — `sort_values` with the default unstable quicksort — does not
determine the order of equal-year records: for a concrete frame of two
equal-year, equal-item records both orders satisfy the contract, so the
stability the claim asserts is a guarantee the code does not provide. -/
theorem sort_values_no_tie_guarantee :
    (∀ (df : List IndicatorRecord) (item : String) (lo hi : Int)
        (out : List IndicatorRecord), sortValuesResult df item lo hi out →
      (∀ r ∈ out, r.item = item ∧ lo ≤ r.year ∧ r.year ≤ hi) ∧
      List.Sorted (fun a b : IndicatorRecord => a.year ≤ b.year) out) ∧
    sortValuesResult [tieFirst, tieSecond]
      "Prevalence of undernourishment (%)" 2000 2010 [tieFirst, tieSecond] ∧
    sortValuesResult [tieFirst, tieSecond]
      "Prevalence of undernourishment (%)" 2000 2010 [tieSecond, tieFirst] ∧
    [tieSecond, tieFirst] ≠ ([tieFirst, tieSecond] : List IndicatorRecord) := by
  refine ⟨?_, ⟨by decide, by decide⟩, ⟨by decide, by decide⟩, by decide⟩
  intro df item lo hi out h
  obtain ⟨hperm, hsort⟩ := h
  refine ⟨?_, hsort⟩
  intro r hr
  have hr2 : r ∈ df.filter (filterPred item lo hi) := hperm.mem_iff.mp hr
  exact of_decide_eq_true (List.mem_filter.mp hr2).2

/-- C2 witness: the membership-and-sortedness half applied to a concrete
frame and one of the two admissible outputs of the unstable sort. -/
theorem sort_values_no_tie_guarantee_witness :
    tieSecond.item = "Prevalence of undernourishment (%)" ∧
    (2000 : Int) ≤ tieSecond.year ∧ tieSecond.year ≤ 2010 :=
  ((sort_values_no_tie_guarantee.1 [tieFirst, tieSecond]
      "Prevalence of undernourishment (%)" 2000 2010 [tieSecond, tieFirst]
      ⟨by decide, by decide⟩).1) tieSecond (by decide)

/-- C4 counterexample: pandas' numeric coercion parses the explicit token
`inf` to positive infinity, so a successfully loaded record can carry a
stored value that is neither a finite float nor absent — refuting the claim's
closing universal. -/
theorem load_value_inf_counterexample :
    load_data [rowInf] =
      Except.ok [{ item := "Average dietary energy supply adequacy (%)",
                   year := 2017, value := PyF.posInf, unit := "%", flag := "E",
                   note := "" }] ∧
    PyF.isFinite PyF.posInf = false ∧ PyF.posInf ≠ PyF.nan := by
  refine ⟨?_, by decide, by decide⟩
  have h1 : parseYearField "2017" = some 2017 := by decide
  have h2 : pyFloat "inf" = PyF.posInf := by decide
  rw [load_data]
  rw [show rowInf.year = "2017" from rfl, h1, load_data]
  rw [show rowInf.value = "inf" from rfl, h2]
  rfl

/-- C4 (amended): value parsing never aborts the load — success depends only
on the year fields — and every loaded value is the numeric coercion of its
raw field: a stored float64 that is finite for decimal tokens, a signed
infinity for explicit infinity tokens, or NaN (absent) for every other
unparseable token, never a raw string.  The concrete two-row scenario loads
the token `N/A` as absent and `1234.5` as the rational 2469/2. -/
theorem load_value_coercion :
    (∀ rows : List RawRow, (∀ r ∈ rows, parseYearField r.year ≠ none) →
      ∃ ds, load_data rows = Except.ok ds) ∧
    (∀ (rows : List RawRow) (ds : List IndicatorRecord),
      load_data rows = Except.ok ds →
      ∀ rec ∈ ds, ∃ r ∈ rows, rec.value = pyFloat r.value) ∧
    load_data [rowNA, rowNum] =
      Except.ok [{ item := "Average dietary energy supply adequacy (%)",
                   year := 2018, value := PyF.nan, unit := "%", flag := "E",
                   note := "" },
                 { item := "Average dietary energy supply adequacy (%)",
                   year := 2019, value := PyF.fin ((2469 : ℚ) / 2),
                   unit := "%", flag := "E", note := "" }] := by
  refine ⟨load_data_ok_of_years, ?_, ?_⟩
  · intro rows ds h rec hrec
    obtain ⟨r, hrmem, _, hv⟩ := load_data_ok_mem rows ds h rec hrec
    exact ⟨r, hrmem, hv⟩
  · have hyA : parseYearField "2018" = some 2018 := by decide
    have hyB : parseYearField "2019" = some 2019 := by decide
    have hNA : pyFloat "N/A" = PyF.nan := by decide
    have hNum : pyFloat "1234.5" = PyF.fin ((2469 : ℚ) / 2) := by
      rw [pyFloat, show pyFloatParts? "1234.5" =
        some (false, "1234".toList, "5".toList, 0) from by decide]
      show PyF.fin (partsToRat false "1234".toList "5".toList 0) = _
      have h1 : digitsVal "1234".toList = 1234 := by decide
      have h2 : digitsVal "5".toList = 5 := by decide
      have h3 : ("5".toList).length = 1 := by decide
      simp only [partsToRat, h1, h2, h3]
      norm_num
    rw [load_data, show rowNA.year = "2018" from rfl, hyA,
      load_data, show rowNum.year = "2019" from rfl, hyB,
      load_data]
    rw [show rowNA.value = "N/A" from rfl, show rowNum.value = "1234.5" from rfl,
      hNA, hNum]
    rfl

/-- C4 witness: the success half applied to the concrete two-row file whose
value column holds one non-numeric and one numeric token. -/
theorem load_value_coercion_witness :
    ∃ ds, load_data [rowNA, rowNum] = Except.ok ds :=
  load_value_coercion.1 [rowNA, rowNum] (by decide)

/-- C1 counterexample: with two records whose first value is zero, the code
still evaluates the formula — division by zero yields positive infinity — so
percentChange is a numeric value, not the `N/A` the claim requires. -/
theorem percentChange_counterexample :
    (summarize [pcZeroFirst, pcOneLast]).percentChange = Metric.num PyF.posInf ∧
    (summarize [pcZeroFirst, pcOneLast]).percentChange ≠ Metric.na := by
  have key : (summarize [pcZeroFirst, pcOneLast]).percentChange =
      Metric.num PyF.posInf := by
    have h0 : pcZeroFirst.value = PyF.fin 0 := rfl
    have h1 : pcOneLast.value = PyF.fin 1 := rfl
    simp only [summarize, percentChangeOf]
    rw [if_pos (by decide : 1 < ([pcZeroFirst, pcOneLast] :
      List IndicatorRecord).length)]
    simp only [List.head?_cons, List.getLast?_cons_cons, List.getLast?_singleton,
      h0, h1, PyF.sub, PyF.div, PyF.mul]
    norm_num
  refine ⟨key, ?_⟩
  rw [key]
  intro h
  cases h

/-- C1 (amended): percentChange is `N/A` exactly when the filtered sequence
has fewer than 2 records; with at least 2 records the formula is evaluated in
float arithmetic regardless of endpoint validity — it equals
`(last - first) / first * 100` when the first value is non-zero and both
endpoint values are finite, it is NaN when either endpoint value is absent,
and it is a signed infinity (or NaN) when the first value is zero — never the
`not applicable` report the original claim requires for those cases. -/
theorem percentChange_semantics :
    (∀ l : List IndicatorRecord, l.length ≤ 1 →
      (summarize l).percentChange = Metric.na) ∧
    (∀ (l : List IndicatorRecord) (f la : IndicatorRecord),
      l.head? = some f → l.getLast? = some la → 1 < l.length →
      (∀ q p : ℚ, f.value = PyF.fin q → q ≠ 0 → la.value = PyF.fin p →
        (summarize l).percentChange =
          Metric.num (PyF.fin ((p - q) / q * 100))) ∧
      ((f.value = PyF.nan ∨ la.value = PyF.nan) →
        (summarize l).percentChange = Metric.num PyF.nan) ∧
      (∀ p : ℚ, f.value = PyF.fin 0 → la.value = PyF.fin p →
        (summarize l).percentChange =
          Metric.num (if 0 < p then PyF.posInf
            else if p < 0 then PyF.negInf else PyF.nan))) := by
  constructor
  · intro l hl
    simp only [summarize, percentChangeOf]
    rw [if_neg (by omega)]
  · intro l f la hf hla hlen
    have key : (summarize l).percentChange =
        Metric.num (PyF.mul (PyF.div (PyF.sub la.value f.value) f.value)
          (PyF.fin 100)) := by
      simp only [summarize, percentChangeOf]
      rw [if_pos hlen, hf, hla]
    refine ⟨?_, ?_, ?_⟩
    · intro q p hq hq0 hp
      rw [key, hq, hp]
      simp only [PyF.sub, PyF.div]
      rw [if_neg hq0]
      simp only [PyF.mul]
    · intro hcase
      rcases hcase with hcase | hcase
      · rw [key, hcase]
        cases hv : la.value with
        | fin p => simp [hv, PyF.sub, PyF.div, PyF.mul]
        | posInf => simp [hv, PyF.sub, PyF.div, PyF.mul]
        | negInf => simp [hv, PyF.sub, PyF.div, PyF.mul]
        | nan => simp [hv, PyF.sub, PyF.div, PyF.mul]
      · rw [key, hcase]
        simp [PyF.sub, PyF.div, PyF.mul]
    · intro p h0 hp
      rw [key, h0, hp]
      simp only [PyF.sub, sub_zero, PyF.div, if_pos (rfl : (0 : ℚ) = 0)]
      rcases lt_trichotomy 0 p with hcmp | hcmp | hcmp
      · simp [PyF.mul, hcmp, hcmp.ne', asymm hcmp,
          (by norm_num : (0 : ℚ) < 100)]
      · simp [PyF.mul, ← hcmp]
      · simp [PyF.mul, hcmp, hcmp.ne, asymm hcmp,
          (by norm_num : (0 : ℚ) < 100)]

/-- C1 witness: the exact-formula case of the amended theorem applied to the
concrete two-record sequence with first value 10 and last value 12. -/
theorem percentChange_semantics_witness :
    (summarize [pcTenFirst, pcTwelveLast]).percentChange =
      Metric.num (PyF.fin (((12 : ℚ) - 10) / 10 * 100)) :=
  ((percentChange_semantics.2 [pcTenFirst, pcTwelveLast] pcTenFirst pcTwelveLast
      rfl rfl (by decide)).1) 10 12 rfl (by norm_num) rfl
